import Mathlib

/-!
Shallow embedding of the two utilities of the `simple_invoice_creator`
repository:

* `create_invoice.py` — invoice builder: line-item loading, total
  computation with Python `Decimal` arithmetic, line-item table assembly,
  currency formatting, CLI source selection and output-path derivation.
* `store_config_in_1password.py` — secret publisher: existence check via
  an external `op` lookup command, followed by a create-or-update call.

Python `float` values are modelled by the decimal number written by their
shortest round-tripping representation (`str(x)`), which is exactly what
`Decimal(str(x))` in the source sees.  Python `Decimal` values are
modelled as a coefficient together with a power-of-ten exponent, and the
arithmetic operations apply the default context of the `decimal` module:
28 significant digits, rounding half to even.
-/

/-- A Python `Decimal` value: the rational number `m * 10 ^ e`. -/
structure Dec where
  m : Int
  e : Int
deriving DecidableEq, Repr

/-- Ten raised to an integer power, as a rational. -/
def qpow10 (e : Int) : ℚ :=
  if 0 ≤ e then ((10 ^ e.toNat : ℕ) : ℚ) else (((10 ^ (-e).toNat : ℕ) : ℚ))⁻¹

/-- The rational value denoted by a `Dec`. -/
def decValue (d : Dec) : ℚ := (d.m : ℚ) * qpow10 d.e

/-- `Decimal("0")`, the accumulator the total starts from. -/
def decZero : Dec := ⟨0, 0⟩

/-- Exact product of two decimals: coefficients multiply, exponents add
(the ideal exponent of Python decimal multiplication, before context
rounding). -/
def decMulExact (a b : Dec) : Dec := ⟨a.m * b.m, a.e + b.e⟩

/-- Exact sum of two decimals: operands are aligned to the smaller
exponent (the ideal exponent of Python decimal addition, before context
rounding). -/
def decAddExact (a b : Dec) : Dec :=
  let e := min a.e b.e
  ⟨a.m * 10 ^ (a.e - e).toNat + b.m * 10 ^ (b.e - e).toNat, e⟩

/-- Coefficient fits in the 28 significant digits of the default
`decimal` context. -/
def fitsB (d : Dec) : Bool := decide (d.m.natAbs < 10 ^ 28)

/-- Number of digits a coefficient exceeds 28 digits by; the first
argument is recursion fuel (passing `n` itself is always sufficient,
since the excess is at most the digit count of `n`). -/
def excessShift : ℕ → ℕ → ℕ
  | 0, _ => 0
  | fuel + 1, n => if n < 10 ^ 28 then 0 else excessShift fuel (n / 10) + 1

/-- Round `n / 10 ^ p` to an integer, ties to even (the ROUND_HALF_EVEN
mode of the default `decimal` context). -/
def roundHalfEvenDiv (n p : ℕ) : ℕ :=
  let d := 10 ^ p
  let q := n / d
  let r := n % d
  if 2 * r < d then q
  else if d < 2 * r then q + 1
  else if q % 2 = 0 then q else q + 1

/-- Context rounding of the default `decimal` context: a coefficient of
more than 28 digits is rounded (half to even) to 28 digits, raising the
exponent accordingly; shorter coefficients pass through unchanged. -/
def roundDec (d : Dec) : Dec :=
  let n := d.m.natAbs
  if n < 10 ^ 28 then d
  else
    let s := excessShift n n
    ⟨d.m.sign * (roundHalfEvenDiv n s : ℤ), d.e + (s : ℤ)⟩

/-- Python decimal multiplication under the default context. -/
def decMul (a b : Dec) : Dec := roundDec (decMulExact a b)

/-- Python decimal addition under the default context. -/
def decAdd (a b : Dec) : Dec := roundDec (decAddExact a b)

/-- One line item of the invoice: `{hours, description, rate}`.  The
description is `Option String` because a short CSV row read by
`csv.DictReader` yields Python `None` for a missing trailing field. -/
structure LineItem where
  hours : Dec
  description : Option String
  rate : Dec
deriving DecidableEq, Repr

/-- The total computed by the loop in `create_invoice` (lines 142-148 of
`create_invoice.py`): `total = Decimal("0")`, then for each item
`total += Decimal(str(hours)) * Decimal(str(rate))`. -/
def invoice_total (items : List LineItem) : Dec :=
  items.foldl (fun t it => decAdd t (decMul it.hours it.rate)) decZero

/-- Replay of the total computation with exact (unrounded) decimal
arithmetic, returning `none` as soon as an intermediate coefficient no
longer fits in the 28-digit context (i.e. as soon as context rounding
would fire in the real computation). -/
def exactTotalRun : Dec → List LineItem → Option Dec
  | t, [] => some t
  | t, it :: rest =>
    let p := decMulExact it.hours it.rate
    let s := decAddExact t p
    if fitsB p && fitsB s then exactTotalRun s rest else none

theorem qpow10_eq_zpow (e : Int) : qpow10 e = (10 : ℚ) ^ e := by
  unfold qpow10
  split
  case isTrue h =>
    push_cast
    rw [← zpow_natCast (10 : ℚ) e.toNat, Int.toNat_of_nonneg h]
  case isFalse h =>
    push_cast
    rw [← zpow_natCast (10 : ℚ) (-e).toNat, Int.toNat_of_nonneg (by omega),
      ← zpow_neg, neg_neg]

theorem qpow10_add (a b : Int) : qpow10 (a + b) = qpow10 a * qpow10 b := by
  rw [qpow10_eq_zpow, qpow10_eq_zpow, qpow10_eq_zpow,
    zpow_add₀ (by norm_num : (10 : ℚ) ≠ 0)]

theorem decValue_mulExact (a b : Dec) :
    decValue (decMulExact a b) = decValue a * decValue b := by
  unfold decValue decMulExact
  push_cast
  rw [qpow10_add]
  ring

theorem decValue_addExact (a b : Dec) :
    decValue (decAddExact a b) = decValue a + decValue b := by
  unfold decValue decAddExact
  have ha : ((10 : ℚ) ^ (a.e - min a.e b.e).toNat) * qpow10 (min a.e b.e) =
      qpow10 a.e := by
    have h1 : qpow10 (a.e - min a.e b.e) = (10 : ℚ) ^ (a.e - min a.e b.e).toNat := by
      unfold qpow10
      rw [if_pos (by omega)]
      push_cast
      ring
    rw [← h1, ← qpow10_add]
    congr 1
    omega
  have hb : ((10 : ℚ) ^ (b.e - min a.e b.e).toNat) * qpow10 (min a.e b.e) =
      qpow10 b.e := by
    have h1 : qpow10 (b.e - min a.e b.e) = (10 : ℚ) ^ (b.e - min a.e b.e).toNat := by
      unfold qpow10
      rw [if_pos (by omega)]
      push_cast
      ring
    rw [← h1, ← qpow10_add]
    congr 1
    omega
  push_cast
  rw [add_mul]
  rw [mul_assoc, mul_assoc, ha, hb]

theorem roundDec_of_fits (d : Dec) (h : fitsB d = true) : roundDec d = d := by
  unfold roundDec
  unfold fitsB at h
  simp only [decide_eq_true_eq] at h
  rw [if_pos h]

/-- Sum of the exact per-item products `hours * rate`, as rationals. -/
def sumProds (items : List LineItem) : ℚ :=
  (items.map fun it => decValue it.hours * decValue it.rate).sum

theorem exactTotalRun_spec :
    ∀ (items : List LineItem) (t0 t : Dec),
      exactTotalRun t0 items = some t →
      items.foldl (fun t it => decAdd t (decMul it.hours it.rate)) t0 = t ∧
      decValue t = decValue t0 + sumProds items := by
  intro items
  induction items with
  | nil =>
    intro t0 t h
    simp only [exactTotalRun, Option.some_inj] at h
    subst h
    simp [sumProds]
  | cons it rest ih =>
    intro t0 t h
    simp only [exactTotalRun] at h
    by_cases hfit : fitsB (decMulExact it.hours it.rate) &&
        fitsB (decAddExact t0 (decMulExact it.hours it.rate))
    · rw [if_pos hfit] at h
      have hp : fitsB (decMulExact it.hours it.rate) = true := by
        exact (Bool.and_eq_true _ _).mp hfit |>.1
      have hs : fitsB (decAddExact t0 (decMulExact it.hours it.rate)) = true := by
        exact (Bool.and_eq_true _ _).mp hfit |>.2
      have hstep : decAdd t0 (decMul it.hours it.rate) =
          decAddExact t0 (decMulExact it.hours it.rate) := by
        unfold decAdd decMul
        rw [roundDec_of_fits _ hp, roundDec_of_fits _ hs]
      obtain ⟨h1, h2⟩ := ih (decAddExact t0 (decMulExact it.hours it.rate)) t h
      constructor
      · simpa [hstep] using h1
      · rw [h2, decValue_addExact, decValue_mulExact]
        simp [sumProds]
        ring
    · rw [if_neg hfit] at h
      exact absurd h (by simp)

/-!
Formatting.  The source formats Python floats with f-strings:
`format_currency` applies the format spec `,.2f` after a dollar sign
(line 62), the hours cell uses the spec `.1f` and the rate cell the
spec `.2f` after a dollar sign (lines 150-152).
The numeric values reaching these format specifiers are modelled by
their exact decimal value (a `Dec`); fixed-point rounding is rounding
half to even, matching the round-to-nearest printing of floats.
-/

/-- Decimal digits of `n`, least significant first; the first argument
is recursion fuel (passing `n` itself is always sufficient). -/
def digitsAux : ℕ → ℕ → List ℕ
  | 0, _ => []
  | fuel + 1, n => if n = 0 then [] else n % 10 :: digitsAux fuel (n / 10)

/-- Decimal digits of `n`, least significant first; `0` prints as a
single `0` digit. -/
def revDigits (n : ℕ) : List ℕ :=
  if n = 0 then [0] else digitsAux n n

/-- Digit characters of `n`, most significant first. -/
def plainNatString (n : ℕ) : String :=
  String.mk ((revDigits n).reverse.map Nat.digitChar)

/-- Split a list into chunks of three, starting from the front (used on
the least-significant-first digit list, so the short chunk is the most
significant group, as in the `,` format specifier). -/
def chunk3 : List ℕ → List (List ℕ)
  | [] => []
  | [a] => [[a]]
  | [a, b] => [[a, b]]
  | a :: b :: c :: rest => [a, b, c] :: chunk3 rest

/-- Thousands groups of `n` in display order (most significant group
first, possibly short; all later groups have exactly three digits). -/
def intGroups (n : ℕ) : List String :=
  ((chunk3 (revDigits n)).map (fun g => String.mk (g.reverse.map Nat.digitChar))).reverse

/-- Integer part rendering of the `,` format specifier: digit groups of
three separated by commas. -/
def groupedNatString (n : ℕ) : String :=
  String.intercalate "," (intGroups n)

/-- Two-digit rendering of a value below 100 (the fractional part of a
`.2f` format). -/
def pad2 (n : ℕ) : String :=
  if n < 10 then "0" ++ plainNatString n else plainNatString n

/-- Round half to even of `d * 10 ^ k`: scale the decimal by `10 ^ k`
and round the result to an integer (for `k = 2`, the cent count printed
by a `.2f` format). -/
def decRoundScaled (d : Dec) (k : ℤ) : ℤ :=
  let ee := d.e + k
  if 0 ≤ ee then d.m * (10 : ℤ) ^ ee.toNat
  else d.m.sign * (roundHalfEvenDiv d.m.natAbs (-ee).toNat : ℤ)

/-- The `format_currency` of the source: the `,.2f` format with a dollar sign. -/
def format_currency (d : Dec) : String :=
  let c := decRoundScaled d 2
  let n := c.natAbs
  "$" ++ (if c < 0 then "-" else "") ++ groupedNatString (n / 100) ++ "." ++ pad2 (n % 100)

/-- The rate cell number: format spec `.2f` (a dollar sign is prepended
at the call site; no thousands grouping). -/
def format2f (d : Dec) : String :=
  let c := decRoundScaled d 2
  let n := c.natAbs
  (if c < 0 then "-" else "") ++ plainNatString (n / 100) ++ "." ++ pad2 (n % 100)

/-- The hours cell number: format spec `.1f`. -/
def format1f (d : Dec) : String :=
  let t := decRoundScaled d 1
  let n := t.natAbs
  (if t < 0 then "-" else "") ++ plainNatString (n / 10) ++ "." ++ String.mk [Nat.digitChar (n % 10)]

/-!
Line-item table assembly (`create_invoice.py` lines 140-160).  A table
cell is `Option String`: `none` models a Python `None` cell (only
possible for a description read from a short CSV row).
-/

/-- A row of `table_data`. -/
abbrev Row := List (Option String)

/-- The header row of the line-item table. -/
def headerRow : Row := [some "Hours", some "Description", some "Rate", some "Amount"]

/-- An all-blank padding row. -/
def blankRow : Row := [some "", some "", some "", some ""]

/-- The row appended per line item: the hours in the spec `.1f` when
truthy and blank otherwise, the description, the dollar-prefixed rate in
the spec `.2f`, and the formatted amount
`Decimal(str(hours)) * Decimal(str(rate))`. -/
def itemRow (it : LineItem) : Row :=
  [some (if it.hours.m = 0 then "" else format1f it.hours),
   it.description,
   some ("$" ++ format2f it.rate),
   some (format_currency (decMul it.hours it.rate))]

/-- The final total row. -/
def totalRow (items : List LineItem) : Row :=
  [some "", some "", some "Total", some (format_currency (invoice_total items))]

/-- The full `table_data` built by `create_invoice`: header, one row per
item, blank rows up to a minimum (`max(0, 8 - len(table_data))`, where
`table_data` already holds the header), then the total row. -/
def invoice_table_data (items : List LineItem) : List Row :=
  let body := headerRow :: items.map itemRow
  (body ++ List.replicate (8 - body.length) blankRow) ++ [totalRow items]

/-!
CSV loading (`load_line_items_from_csv`, lines 48-58).  A row produced
by `csv.DictReader` is modelled as an association list from column name
to `Option String`: an absent key models a column missing from the
header (Python `KeyError` on access), while a `none` value models the
`None` that `DictReader` fills in for a short row.  Cell strings are
parsed with a model of Python `float`, whose result is a `FloatVal`:
a finite decimal value, or one of the non-finite `inf`/`nan` values
that `float` also accepts.  Python exceptions escaping the function are
modelled by `Except`; the messages carry the same data as the Python
exceptions (quotation marks around offending values are elided).
-/

/-- A CSV row as produced by `csv.DictReader`. -/
abbrev CsvRow := List (String × Option String)

/-- Dictionary lookup: `none` is a `KeyError`, `some none` a stored
Python `None`. -/
def rowGet (row : CsvRow) (k : String) : Option (Option String) :=
  (row.find? (fun p => p.1 == k)).map (fun p => p.2)

/-- The Python exceptions that can escape `load_line_items_from_csv`. -/
inductive PyExn where
  | keyError (key : String)
  | typeError (msg : String)
  | valueError (msg : String)
deriving DecidableEq, Repr

/-- Message of the `TypeError` raised by `float(None)`. -/
def floatNoneMsg : String :=
  "float() argument must be a string or a real number, not NoneType"

/-- Message of the `ValueError` raised by `float` on a non-numeric
string. -/
def floatValueMsg (s : String) : String :=
  "could not convert string to float: " ++ s

/-- Digit value of a character, if it is a decimal digit. -/
def charDigit (c : Char) : Option ℕ :=
  if '0' ≤ c ∧ c ≤ '9' then some (c.toNat - 48) else none

/-- The characters `float` strips from both ends of its argument (the
ASCII whitespace; the model leaves out the rarer Unicode spaces that
Python also strips). -/
def isPySpace (c : Char) : Bool :=
  c = ' ' ∨ c = '\t' ∨ c = '\n' ∨ c = '\r' ∨ c = '\x0b' ∨ c = '\x0c'

/-- Strip the surrounding whitespace of a character list. -/
def stripPySpace (l : List Char) : List Char :=
  ((l.dropWhile isPySpace).reverse.dropWhile isPySpace).reverse

/-- Split the longest run of digits and underscores off the front of a
character list. -/
def takeRawRun : List Char → List Char × List Char
  | [] => ([], [])
  | c :: rest =>
    if (charDigit c).isSome ∨ c = '_' then
      let p := takeRawRun rest
      (c :: p.1, p.2)
    else ([], c :: rest)

/-- Digit values of a digit-and-underscore run in which every
underscore is single and followed by a digit, `none` otherwise (a
leading underscore is rejected by the caller). -/
def cleanRunAux : List Char → Option (List ℕ)
  | [] => some []
  | c :: rest =>
    match charDigit c with
    | some d => (cleanRunAux rest).map (fun ds => d :: ds)
    | none =>
      match rest with
      | [] => none
      | c2 :: _ => if (charDigit c2).isSome then cleanRunAux rest else none

/-- Digit values of a raw digit-and-underscore run: underscores may only
stand singly between two digits, as in a Python numeric literal. -/
def parseRun : List Char → Option (List ℕ)
  | [] => some []
  | '_' :: _ => none
  | l => cleanRunAux l

/-- Value of a most-significant-first digit list. -/
def natFromDigits (ds : List ℕ) : ℕ :=
  ds.foldl (fun a d => a * 10 + d) 0

/-- Exponent suffix of a float literal (after the mantissa): empty, or
`e`/`E`, an optional sign and a nonempty digit run (single underscores
between digits allowed). -/
def parseExpSuffix : List Char → Option ℤ
  | [] => some 0
  | c :: rest =>
    if c = 'e' ∨ c = 'E' then
      let signed : ℤ × List Char :=
        match rest with
        | '+' :: r2 => (1, r2)
        | '-' :: r2 => (-1, r2)
        | r2 => (1, r2)
      let raw := takeRawRun signed.2
      match parseRun raw.1 with
      | none => none
      | some ds =>
        if ds.isEmpty then none
        else if raw.2.isEmpty then some (signed.1 * (natFromDigits ds : ℤ))
        else none
    else none

/-- The value of a Python float: a finite value carried as the decimal
number it was written as, or one of the non-finite values that `float`
also produces. -/
inductive FloatVal where
  | finite (d : Dec)
  | posInf
  | negInf
  | nan
deriving DecidableEq, Repr

/-- Python `float(s)`: surrounding whitespace is stripped, then an
optional sign is followed by `inf`/`infinity`/`nan` in any letter case,
or by a decimal or scientific literal whose digit runs may hold single
underscores between digits.  `none` models the `ValueError` raised on
any other string.  A finite value is kept as the exact decimal it
denotes (conversion to the nearest binary double — including the
overflow of out-of-range exponents to infinity — is the declared float
abstraction; digits mean ASCII digits, leaving out the Unicode decimal
digits Python also accepts). -/
def pyFloat (s : String) : Option FloatVal :=
  let stripped := stripPySpace s.data
  let signed : Bool × List Char :=
    match stripped with
    | '+' :: r => (false, r)
    | '-' :: r => (true, r)
    | r => (false, r)
  let low := signed.2.map Char.toLower
  if low = ['i', 'n', 'f'] ∨ low = ['i', 'n', 'f', 'i', 'n', 'i', 't', 'y'] then
    some (if signed.1 then FloatVal.negInf else FloatVal.posInf)
  else if low = ['n', 'a', 'n'] then
    some FloatVal.nan
  else
    let ipRaw := takeRawRun signed.2
    match parseRun ipRaw.1 with
    | none => none
    | some ip =>
      let fpStep : Option (List ℕ) × List Char :=
        match ipRaw.2 with
        | '.' :: r =>
          let fpRaw := takeRawRun r
          (parseRun fpRaw.1, fpRaw.2)
        | r => (some [], r)
      match fpStep.1 with
      | none => none
      | some fp =>
        if ip.isEmpty ∧ fp.isEmpty then none
        else
          match parseExpSuffix fpStep.2 with
          | none => none
          | some ex =>
            some (FloatVal.finite
              ⟨(if signed.1 then -1 else 1) * (natFromDigits (ip ++ fp) : ℤ),
               ex - (fp.length : ℤ)⟩)

/-- One loaded CSV line item, as the dict the loop appends: hours and
rate are the parsed floats (possibly non-finite), the description is
the stored cell (possibly the `None` of a short row). -/
structure CsvLineItem where
  hours : FloatVal
  description : Option String
  rate : FloatVal
deriving DecidableEq, Repr

/-- Loading of one CSV row (the body of the loop in
`load_line_items_from_csv`): `float(row["hours"])`, then
`row["description"]`, then `float(row["rate"])`, in that order. -/
def load_row (row : CsvRow) : Except PyExn CsvLineItem :=
  match rowGet row "hours" with
  | none => .error (.keyError "hours")
  | some none => .error (.typeError floatNoneMsg)
  | some (some hs) =>
    match pyFloat hs with
    | none => .error (.valueError (floatValueMsg hs))
    | some h =>
      match rowGet row "description" with
      | none => .error (.keyError "description")
      | some d =>
        match rowGet row "rate" with
        | none => .error (.keyError "rate")
        | some none => .error (.typeError floatNoneMsg)
        | some (some rs) =>
          match pyFloat rs with
          | none => .error (.valueError (floatValueMsg rs))
          | some r => .ok ⟨h, d, r⟩

/-- `load_line_items_from_csv`: the rows are processed in order and the
first raised exception aborts the whole load. -/
def load_line_items_from_csv : List CsvRow → Except PyExn (List CsvLineItem)
  | [] => .ok []
  | row :: rest =>
    match load_row row with
    | .error e => .error e
    | .ok it =>
      match load_line_items_from_csv rest with
      | .error e => .error e
      | .ok items => .ok (it :: items)

/-!
CLI pipeline of the invoice builder (`main`, lines 206-231).  Parsed
arguments are modelled directly; a parsed `--hours`/`--rate` float is
carried as the decimal value of its shortest representation.  Python
truthiness drives every branch: an absent option and a falsy present
value (empty string, zero float) behave identically.
-/

/-- Parsed CLI arguments of `create_invoice.py` (absent options are
`none`; `--date` always holds a string since it defaults to today). -/
structure Args where
  hours : Option Dec
  rate : Option Dec
  description : Option String
  date : String
  csv : Option String
  output : Option String
deriving DecidableEq, Repr

/-- The `[invoice]` section of the configuration. -/
structure InvoiceCfg where
  numberPrefixCfg : String
  filenamePrefixCfg : String
  defaultDescription : String
  defaultRate : Dec
deriving DecidableEq, Repr

/-- Python truthiness of an optional string (`None` and `""` are
falsy). -/
def strTruthy : Option String → Bool
  | none => false
  | some s => !(s == "")

/-- Python truthiness of an optional float (`None` and `0.0` are
falsy). -/
def decTruthy : Option Dec → Bool
  | none => false
  | some d => !(d.m == 0)

/-- Python `x or y` on an optional string. -/
def pyOrStr (o : Option String) (dflt : String) : String :=
  match o with
  | none => dflt
  | some s => if s == "" then dflt else s

/-- Python `x or y` on an optional float. -/
def pyOrDec (o : Option Dec) (dflt : Dec) : Dec :=
  match o with
  | none => dflt
  | some d => if d.m == 0 then dflt else d

/-- Python `args.date.replace("-", "")`. -/
def removeDashes (s : String) : String :=
  String.mk (s.data.filter (fun c => !(c == '-')))

/-- Output path resolution (lines 225-229): a truthy `--output` is used
as given, otherwise the configured filename prefix, an underscore, the
date with its dashes removed, and `.pdf`. -/
def main_output_path (output : Option String) (icfg : InvoiceCfg) (date : String) : String :=
  if strTruthy output then output.getD ""
  else icfg.filenamePrefixCfg ++ "_" ++ removeDashes date ++ ".pdf"

/-- Where `main` gets its line items: the CSV file, or the single CLI
triple. -/
inductive LineItemSource where
  | fromCsv (path : String)
  | literal (items : List LineItem)
deriving DecidableEq, Repr

/-- Outcome of `main` after argument handling: the usage-error message
with no invoice written, or a `create_invoice` call with a line-item
source and an output path. -/
inductive MainResult where
  | usageError (msg : String)
  | runInvoice (source : LineItemSource) (outputPath : String)
deriving DecidableEq, Repr

/-- Source selection and output naming in `main` (lines 213-229):
`if args.csv: ... elif args.hours: ... else: usage error`; the single
CLI line item takes `args.description or default` and `args.rate or
default`; the error path returns before any output path is computed or
any file written. -/
def main_run (args : Args) (icfg : InvoiceCfg) : MainResult :=
  if strTruthy args.csv then
    .runInvoice (.fromCsv (args.csv.getD "")) (main_output_path args.output icfg args.date)
  else if decTruthy args.hours then
    .runInvoice
      (.literal [⟨args.hours.getD decZero,
                  some (pyOrStr args.description icfg.defaultDescription),
                  pyOrDec args.rate icfg.defaultRate⟩])
      (main_output_path args.output icfg args.date)
  else
    .usageError "Error: Must provide either --hours or --csv"

/-!
Secret publisher (`store_config_in_1password.py`).  The external world
is an oracle giving the exit codes of the three possible `op`
invocations and whether the `op` binary exists at all; `store_config`
is the function from that oracle (plus the config file content) to the
observable trace: commands invoked, stdout and stderr lines, the
`sys.exit` code if any, and the returned reference string.
-/

/-- Behaviour of the external environment for one run. -/
structure OpWorld where
  opInstalled : Bool
  getExit : Int
  editExit : Int
  createExit : Int
  editStderr : String
  createStderr : String
deriving DecidableEq, Repr

/-- An invoked `op` command with the arguments the source passes. -/
inductive OpCmd where
  | get (title vault : String) (account : Option String)
  | edit (title vault payload : String) (account : Option String)
  | create (vault title payload : String) (account : Option String)
deriving DecidableEq, Repr

/-- Observable trace of one `store_config` run. -/
structure StoreResult where
  commands : List OpCmd
  stdoutLines : List String
  stderrLines : List String
  exitCode : Option Int
  ref : Option String
deriving DecidableEq, Repr

/-- `item_exists` (lines 16-21): run `op item get` and report whether
its exit code is zero; a non-zero exit of any cause reads as "absent". -/
def item_exists (w : OpWorld) : Bool := w.getExit == 0

/-- The reference string built and printed by `store_config`. -/
def opRef (vault title : String) : String :=
  "op://" ++ vault ++ "/" ++ title ++ "/config"

/-- `store_config` (lines 24-59).  `configContent` is the raw text of
the config file, or `none` when the file is missing; `w.editStderr` and
`w.createStderr` model the already-stripped stderr text of a failing
tool call. -/
def store_config (configPath : String) (configContent : Option String)
    (vault title : String) (account : Option String) (w : OpWorld) : StoreResult :=
  match configContent with
  | none =>
    ⟨[], [], ["Error: Config file not found: " ++ configPath], some 1, none⟩
  | some content =>
    if !w.opInstalled then
      ⟨[], [],
       ["1Password CLI (op) not found. Install it from https://1password.com/downloads/command-line/"],
       some 1, none⟩
    else
      let getCmd := OpCmd.get title vault account
      let payload := "config[text]=" ++ content
      if item_exists w then
        let editCmd := OpCmd.edit title vault payload account
        if w.editExit == 0 then
          ⟨[getCmd, editCmd], ["Config updated in 1Password: " ++ opRef vault title],
           [], none, some (opRef vault title)⟩
        else
          ⟨[getCmd, editCmd], [],
           ["Failed to store in 1Password: " ++ w.editStderr], some 1, none⟩
      else
        let createCmd := OpCmd.create vault title payload account
        if w.createExit == 0 then
          ⟨[getCmd, createCmd], ["Config stored in 1Password: " ++ opRef vault title],
           [], none, some (opRef vault title)⟩
        else
          ⟨[getCmd, createCmd], [],
           ["Failed to store in 1Password: " ++ w.createStderr], some 1, none⟩

/-- Whether a command is one of the two mutating calls (`edit` or
`create`). -/
def isModifyCmd : OpCmd → Bool
  | .get _ _ _ => false
  | .edit _ _ _ _ => true
  | .create _ _ _ _ => true

/-- Whether a trace contains an `edit` command. -/
def hasEdit (cmds : List OpCmd) : Bool :=
  cmds.any (fun c => match c with | .edit _ _ _ _ => true | _ => false)

/-- Whether a trace contains a `create` command. -/
def hasCreate (cmds : List OpCmd) : Bool :=
  cmds.any (fun c => match c with | .create _ _ _ _ => true | _ => false)

/-!
Helper lemmas about digit rendering and thousands grouping.
-/

theorem digitsAux_lt_ten : ∀ (fuel n : ℕ), ∀ d ∈ digitsAux fuel n, d < 10 := by
  intro fuel
  induction fuel with
  | zero =>
    intro n d h
    simp [digitsAux] at h
  | succ f ih =>
    intro n d h
    simp only [digitsAux] at h
    by_cases hn : n = 0
    · simp [hn] at h
    · rw [if_neg hn] at h
      rcases List.mem_cons.mp h with h1 | h1
      · subst h1
        exact Nat.mod_lt _ (by norm_num)
      · exact ih (n / 10) d h1

theorem revDigits_lt_ten (n : ℕ) : ∀ d ∈ revDigits n, d < 10 := by
  unfold revDigits
  split
  · intro d h
    simp at h
    omega
  · exact digitsAux_lt_ten n n

theorem revDigits_ne_nil (n : ℕ) : revDigits n ≠ [] := by
  unfold revDigits
  split
  · simp
  case isFalse hn =>
    obtain ⟨k, rfl⟩ := Nat.exists_eq_succ_of_ne_zero hn
    unfold digitsAux
    rw [if_neg hn]
    simp

theorem chunk3_mem_spec : ∀ (l : List ℕ), ∀ g ∈ chunk3 l,
    (1 ≤ g.length ∧ g.length ≤ 3) ∧ ∀ x ∈ g, x ∈ l
  | [] => by
    intro g h
    simp [chunk3] at h
  | [a] => by
    intro g h
    simp only [chunk3, List.mem_singleton] at h
    subst h
    simp
  | [a, b] => by
    intro g h
    simp only [chunk3, List.mem_singleton] at h
    subst h
    simp
  | a :: b :: c :: rest => by
    intro g h
    rw [show chunk3 (a :: b :: c :: rest) = [a, b, c] :: chunk3 rest from rfl] at h
    rcases List.mem_cons.mp h with h1 | h1
    · subst h1
      refine ⟨by simp, ?_⟩
      intro x hx
      rcases List.mem_cons.mp hx with h2 | h2
      · simp [h2]
      rcases List.mem_cons.mp h2 with h3 | h3
      · simp [h3]
      · simp at h3
        simp [h3]
    · obtain ⟨hlen, hsub⟩ := chunk3_mem_spec rest g h1
      refine ⟨hlen, fun x hx => ?_⟩
      have := hsub x hx
      simp [this]

theorem chunk3_ne_nil : ∀ (l : List ℕ), l ≠ [] → chunk3 l ≠ []
  | [], h => absurd rfl h
  | [_], _ => by simp [chunk3]
  | [_, _], _ => by simp [chunk3]
  | _ :: _ :: _ :: _, _ => by simp [chunk3]

theorem chunk3_dropLast_len : ∀ (l : List ℕ), ∀ g ∈ (chunk3 l).dropLast, g.length = 3
  | [] => by simp [chunk3]
  | [a] => by simp [chunk3]
  | [a, b] => by simp [chunk3]
  | a :: b :: c :: rest => by
    intro g h
    rw [show chunk3 (a :: b :: c :: rest) = [a, b, c] :: chunk3 rest from rfl] at h
    cases hcr : chunk3 rest with
    | nil =>
      rw [hcr] at h
      simp at h
    | cons y ys =>
      rw [hcr, List.dropLast_cons₂] at h
      rcases List.mem_cons.mp h with h1 | h1
      · subst h1
        rfl
      · rw [← hcr] at h1
        exact chunk3_dropLast_len rest g h1

theorem tail_reverse_eq {α : Type _} (l : List α) : l.reverse.tail = l.dropLast.reverse := by
  induction l using List.reverseRecOn with
  | nil => rfl
  | append_singleton xs x ih => simp

theorem map_dropLast_comm {α β : Type _} (f : α → β) (l : List α) :
    (l.map f).dropLast = l.dropLast.map f := by
  rw [List.dropLast_eq_take, List.dropLast_eq_take, List.map_take, List.length_map]

theorem pad2_spec : ∀ n : ℕ, n < 100 →
    (pad2 n).length = 2 ∧ ∀ c ∈ (pad2 n).data, c.isDigit = true := by decide

theorem digitChar_isDigit : ∀ d : ℕ, d < 10 → (Nat.digitChar d).isDigit = true := by decide

theorem intGroups_ne_nil (n : ℕ) : intGroups n ≠ [] := by
  unfold intGroups
  intro h
  rw [List.reverse_eq_nil_iff] at h
  have := List.map_eq_nil_iff.mp h
  exact chunk3_ne_nil _ (revDigits_ne_nil n) this

theorem mem_intGroups_spec (n : ℕ) (g : String) (hg : g ∈ intGroups n) :
    (1 ≤ g.length ∧ g.length ≤ 3) ∧ ∀ c ∈ g.data, c.isDigit = true := by
  unfold intGroups at hg
  rw [List.mem_reverse] at hg
  obtain ⟨g0, hg0, rfl⟩ := List.mem_map.mp hg
  obtain ⟨⟨h1, h2⟩, hsub⟩ := chunk3_mem_spec (revDigits n) g0 hg0
  have hlen : (String.mk (g0.reverse.map Nat.digitChar)).length = g0.length := by
    simp [String.length]
  refine ⟨⟨by omega, by omega⟩, ?_⟩
  intro c hc
  have hc2 : c ∈ g0.reverse.map Nat.digitChar := hc
  obtain ⟨d, hd, rfl⟩ := List.mem_map.mp hc2
  have hd2 : d ∈ g0 := List.mem_reverse.mp hd
  exact digitChar_isDigit d (revDigits_lt_ten n d (hsub d hd2))

theorem mem_tail_intGroups (n : ℕ) (g : String) (hg : g ∈ (intGroups n).tail) :
    g.length = 3 := by
  unfold intGroups at hg
  rw [tail_reverse_eq, List.mem_reverse, map_dropLast_comm] at hg
  obtain ⟨g0, hg0, rfl⟩ := List.mem_map.mp hg
  have h3 := chunk3_dropLast_len (revDigits n) g0 hg0
  simp [String.length, h3]

/-!
Concrete inputs used by counterexamples and witnesses.
-/

/-- Three line items of 0.1 hours at rate 3 (the repeated fractional
value of the drift example). -/
def threeItems : List LineItem :=
  List.replicate 3 ⟨⟨1, -1⟩, some "Consulting Services", ⟨3, 0⟩⟩

/-- A line item whose hours and rate are 15-significant-digit decimals
(both reachable from CLI or CSV input, since 15-digit decimals survive
the float round trip); their exact product has 30 significant digits,
more than the 28 of the default `decimal` context. -/
def bigItem : LineItem :=
  ⟨⟨123456789012345, -15⟩, some "Consulting Services", ⟨987654321098765, -15⟩⟩

/-- C1, counterexample: for the one-item sequence `[bigItem]` the
computed total is not the exact decimal sum of hours × rate: the
30-digit coefficient of the product is rounded to the 28 significant digits
of the default context (`0.1219326311370210713595492539` instead of the
exact `0.121932631137021071359549253925`). -/
theorem invoice_c1_counterexample :
    decValue (invoice_total [bigItem]) ≠ sumProds [bigItem] := by
  have h : invoice_total [bigItem] = ⟨1219326311370210713595492539, -28⟩ := by decide
  rw [h]
  intro heq
  apply (by
    simp only [sumProds, bigItem, List.map_cons, List.map_nil, List.sum_cons, List.sum_nil,
      decValue, qpow10_eq_zpow]
    norm_num : sumProds [bigItem] ≠ decValue ⟨1219326311370210713595492539, -28⟩)
  exact heq.symm

/-- C1 (amended): the computed invoice total equals the exact decimal
sum of hours × rate over the items whenever no intermediate coefficient
(any product, any partial sum) exceeds the 28 significant digits of the
default decimal context — in particular for all ordinary currency
values; repeated fractional values such as 0.1 at rate 3 accumulate
with no floating-point drift. -/
theorem invoice_c1_total_exact (items : List LineItem) (t : Dec)
    (h : exactTotalRun decZero items = some t) :
    decValue (invoice_total items) = sumProds items := by
  obtain ⟨h1, h2⟩ := exactTotalRun_spec items decZero t h
  unfold invoice_total
  rw [h1, h2]
  simp [decValue, decZero]

/-- C1, witness: three items of 0.1 hours at rate 3 stay within the
context everywhere, and the computed total is exactly 9/10 — no
floating-point drift. -/
theorem invoice_c1_total_exact_witness :
    exactTotalRun decZero threeItems = some ⟨9, -1⟩ ∧
    decValue (invoice_total threeItems) = 9 / 10 := by
  refine ⟨by decide, ?_⟩
  rw [invoice_c1_total_exact threeItems ⟨9, -1⟩ (by decide)]
  simp only [sumProds, threeItems, List.replicate, List.map_cons, List.map_nil, List.sum_cons,
    List.sum_nil, decValue, qpow10_eq_zpow]
  norm_num

/-- C6: with zero line items the computed total is 0 and the table is
the header, seven blank rows, and a total row showing `$0.00`; and every
`format_currency` output is a `$`, an optional minus sign, digit groups
of at most three separated by commas (all groups after the first exactly
three digits), a decimal point, and exactly two fractional digits. -/
theorem format_c6_currency_shape :
    decValue (invoice_total []) = 0 ∧
    invoice_table_data [] =
      headerRow :: (List.replicate 7 blankRow
        ++ [[some "", some "", some "Total", some "$0.00"]]) ∧
    ∀ d : Dec, ∃ sign gs frac,
      format_currency d = "$" ++ sign ++ String.intercalate "," gs ++ "." ++ frac ∧
      (sign = "" ∨ sign = "-") ∧
      frac.length = 2 ∧
      gs ≠ [] ∧
      (∀ g ∈ gs, (1 ≤ g.length ∧ g.length ≤ 3) ∧ ∀ c ∈ g.data, c.isDigit = true) ∧
      (∀ g ∈ gs.tail, g.length = 3) ∧
      (∀ c ∈ frac.data, c.isDigit = true) := by
  refine ⟨by simp [invoice_total, decValue, decZero], by decide, ?_⟩
  intro d
  refine ⟨if decRoundScaled d 2 < 0 then "-" else "",
    intGroups ((decRoundScaled d 2).natAbs / 100),
    pad2 ((decRoundScaled d 2).natAbs % 100), rfl, ?_, ?_, ?_, ?_, ?_, ?_⟩
  · by_cases h : decRoundScaled d 2 < 0
    · right
      simp [h]
    · left
      simp [h]
  · exact (pad2_spec _ (Nat.mod_lt _ (by norm_num))).1
  · exact intGroups_ne_nil _
  · intro g hg
    exact mem_intGroups_spec _ g hg
  · intro g hg
    exact mem_tail_intGroups _ g hg
  · exact (pad2_spec _ (Nat.mod_lt _ (by norm_num))).2

/-- C6, witness: the shape statement applied at the concrete value
1234567.89, whose rendering is `$1,234,567.89`. -/
theorem format_c6_currency_shape_witness :
    format_currency ⟨123456789, -2⟩ = "$1,234,567.89" ∧
    (∃ sign gs frac,
      format_currency ⟨123456789, -2⟩ =
        "$" ++ sign ++ String.intercalate "," gs ++ "." ++ frac ∧
      (sign = "" ∨ sign = "-") ∧
      frac.length = 2 ∧
      gs ≠ [] ∧
      (∀ g ∈ gs, (1 ≤ g.length ∧ g.length ≤ 3) ∧ ∀ c ∈ g.data, c.isDigit = true) ∧
      (∀ g ∈ gs.tail, g.length = 3) ∧
      (∀ c ∈ frac.data, c.isDigit = true)) :=
  ⟨by decide, format_c6_currency_shape.2.2 ⟨123456789, -2⟩⟩

/-- The `[invoice]` configuration used by concrete runs. -/
def cfgEx : InvoiceCfg := ⟨"INV-", "invoices", "Consulting Services", ⟨150, 0⟩⟩

/-- Arguments supplying both `--hours 5` and `--csv line_items.csv`. -/
def argsBoth : Args := ⟨some ⟨5, 0⟩, none, none, "2025-01-15", some "line_items.csv", none⟩

/-- Ten identical one-hour line items. -/
def tenItems : List LineItem :=
  List.replicate 10 ⟨⟨1, 0⟩, some "Consulting Services", ⟨100, 0⟩⟩

/-- C5: the line-item table is the header plus one row per item, padded
with `8 - (n + 1)` blank rows (so at least 8 rows stand before the total
row), followed by the total row; from 7 items on, no padding row is
added and the table grows to fit. -/
theorem table_c5_min_rows (items : List LineItem) :
    invoice_table_data items =
      (headerRow :: items.map itemRow)
        ++ List.replicate (8 - (items.length + 1)) blankRow
        ++ [totalRow items] ∧
    8 ≤ (headerRow :: items.map itemRow).length + (8 - (items.length + 1)) ∧
    (7 ≤ items.length → 8 - (items.length + 1) = 0) := by
  refine ⟨?_, ?_, fun h => by omega⟩
  · simp [invoice_table_data, List.append_assoc]
  · simp only [List.length_cons, List.length_map]
    omega

/-- C5, witness: with ten items no padding row is added — the table is
exactly the header, the ten item rows and the total row (12 rows). -/
theorem table_c5_min_rows_witness :
    invoice_table_data tenItems = (headerRow :: tenItems.map itemRow) ++ [totalRow tenItems] ∧
    8 - (tenItems.length + 1) = 0 ∧
    (invoice_table_data tenItems).length = 12 := by
  obtain ⟨h1, _, h3⟩ := table_c5_min_rows tenItems
  have h0 : 8 - (tenItems.length + 1) = 0 := h3 (by decide)
  rw [h0, List.replicate_zero] at h1
  simp only [List.append_nil] at h1
  exact ⟨h1, h0, by decide⟩

/-- C7, counterexample: `--output ""` is supplied but its value is not
used verbatim — the empty string is falsy, so the derived name is used
instead. -/
theorem output_c7_counterexample :
    main_output_path (some "") cfgEx "2025-01-15" = "invoices_20250115.pdf" ∧
    main_output_path (some "") cfgEx "2025-01-15" ≠ "" := by decide

/-- C7 (amended): an omitted or empty `--output` yields the derived name
`{filename_prefix}_{date without dashes}.pdf` (which is
`{filename_prefix}_{YYYYMMDD}.pdf` for a dashless `YYYY-MM-DD` date);
a nonempty `--output` value is used verbatim. -/
theorem output_c7_naming (icfg : InvoiceCfg) (date : String) :
    main_output_path none icfg date =
      icfg.filenamePrefixCfg ++ "_" ++ removeDashes date ++ ".pdf" ∧
    (∀ s : String, s ≠ "" → main_output_path (some s) icfg date = s) ∧
    main_output_path (some "") icfg date =
      icfg.filenamePrefixCfg ++ "_" ++ removeDashes date ++ ".pdf" ∧
    (∀ y mo dd : String, '-' ∉ y.data → '-' ∉ mo.data → '-' ∉ dd.data →
      removeDashes (y ++ "-" ++ mo ++ "-" ++ dd) = y ++ mo ++ dd) := by
  refine ⟨rfl, ?_, rfl, ?_⟩
  · intro s hs
    have h : (s == "") = false := by
      simpa using hs
    simp [main_output_path, strTruthy, h]
  · intro y mo dd hy hmo hdd
    have hfilter : ∀ l : List Char, '-' ∉ l →
        l.filter (fun c => !(c == '-')) = l := by
      intro l hl
      apply List.filter_eq_self.mpr
      intro a ha
      have : a ≠ '-' := fun h => hl (h ▸ ha)
      simp [this]
    unfold removeDashes
    rw [show (y ++ "-" ++ mo ++ "-" ++ dd).data
        = y.data ++ ['-'] ++ mo.data ++ ['-'] ++ dd.data by
      simp [String.data_append]]
    simp only [List.filter_append, hfilter y.data hy, hfilter mo.data hmo,
      hfilter dd.data hdd]
    rw [show List.filter (fun c => !(c == '-')) ['-'] = [] from rfl]
    rw [show y ++ mo ++ dd = String.mk (y.data ++ mo.data ++ dd.data) from rfl]
    simp

/-- C7, witness: a nonempty `--output my.pdf` is used verbatim, an
omitted one derives `invoices_20250115.pdf`, and stripping the dashes of
`2025-01-15` gives `20250115`. -/
theorem output_c7_naming_witness :
    main_output_path (some "my.pdf") cfgEx "2025-01-15" = "my.pdf" ∧
    main_output_path none cfgEx "2025-01-15" =
      cfgEx.filenamePrefixCfg ++ "_" ++ removeDashes "2025-01-15" ++ ".pdf" ∧
    removeDashes ("2025" ++ "-" ++ "01" ++ "-" ++ "15") = "2025" ++ "01" ++ "15" := by
  obtain ⟨h1, h2, _, h4⟩ := output_c7_naming cfgEx "2025-01-15"
  exact ⟨h2 "my.pdf" (by decide), h1, h4 "2025" "01" "15" (by decide) (by decide) (by decide)⟩

/-- C2, counterexample: supplying both `--hours 5` and
`--csv line_items.csv` is not a usage error — the CSV branch is taken
silently and an invoice is produced. -/
theorem main_c2_counterexample :
    main_run argsBoth cfgEx =
      MainResult.runInvoice (LineItemSource.fromCsv "line_items.csv") "invoices_20250115.pdf" ∧
    main_run argsBoth cfgEx ≠
      MainResult.usageError "Error: Must provide either --hours or --csv" := by decide

/-- C2 (amended): supplying neither `--hours` nor `--csv` (nor a falsy
value for each) prints the usage-error message and produces no invoice;
when a nonempty `--csv` is supplied, the CSV source is used — even if
`--hours` is also supplied, which is not an error. -/
theorem main_c2_source_selection (args : Args) (icfg : InvoiceCfg) :
    (strTruthy args.csv = false → decTruthy args.hours = false →
      main_run args icfg =
        MainResult.usageError "Error: Must provide either --hours or --csv") ∧
    (∀ p : String, args.csv = some p → p ≠ "" →
      main_run args icfg =
        MainResult.runInvoice (LineItemSource.fromCsv p)
          (main_output_path args.output icfg args.date)) := by
  constructor
  · intro h1 h2
    simp [main_run, h1, h2]
  · intro p hp hne
    have h : strTruthy (some p) = true := by
      simp [strTruthy, hne]
    simp [main_run, hp, h]

/-- C2, witness: with neither source the run is the usage error; with
only `--csv items.csv` the CSV branch runs. -/
theorem main_c2_source_selection_witness :
    main_run ⟨none, none, none, "2025-01-15", none, none⟩ cfgEx =
      MainResult.usageError "Error: Must provide either --hours or --csv" ∧
    main_run ⟨none, none, none, "2025-01-15", some "items.csv", none⟩ cfgEx =
      MainResult.runInvoice (LineItemSource.fromCsv "items.csv") "invoices_20250115.pdf" := by
  constructor
  · exact (main_c2_source_selection _ cfgEx).1 rfl rfl
  · have h := (main_c2_source_selection
      ⟨none, none, none, "2025-01-15", some "items.csv", none⟩ cfgEx).2
      "items.csv" rfl (by decide)
    rw [h]
    decide

/-- C9: an explicit `--hours 0` (with no `--csv`) is falsy, so the
usage-error path is taken exactly as if `--hours` were omitted; an
explicit `--rate 0` is falsy, so the configured default rate replaces
it. -/
theorem main_c9_truthiness (args : Args) (icfg : InvoiceCfg) :
    (∀ h : Dec, args.csv = none → args.hours = some h → h.m = 0 →
      main_run args icfg =
        MainResult.usageError "Error: Must provide either --hours or --csv") ∧
    (∀ h r : Dec, args.csv = none → args.hours = some h → h.m ≠ 0 →
      args.rate = some r → r.m = 0 →
      main_run args icfg =
        MainResult.runInvoice
          (LineItemSource.literal
            [⟨h, some (pyOrStr args.description icfg.defaultDescription), icfg.defaultRate⟩])
          (main_output_path args.output icfg args.date)) := by
  constructor
  · intro h hcsv hh hm
    simp [main_run, strTruthy, decTruthy, hcsv, hh, hm]
  · intro h r hcsv hh hm hr hrm
    simp [main_run, strTruthy, decTruthy, hcsv, hh, hm, pyOrDec, hr, hrm]

/-- C9, witness: `--hours 0` alone errors like an omission, and
`--hours 5 --rate 0` falls back to the configured default rate 150. -/
theorem main_c9_truthiness_witness :
    main_run ⟨some ⟨0, 0⟩, none, none, "2025-01-15", none, none⟩ cfgEx =
      MainResult.usageError "Error: Must provide either --hours or --csv" ∧
    main_run ⟨some ⟨5, 0⟩, some ⟨0, 0⟩, none, "2025-01-15", none, none⟩ cfgEx =
      MainResult.runInvoice
        (LineItemSource.literal [⟨⟨5, 0⟩, some "Consulting Services", ⟨150, 0⟩⟩])
        "invoices_20250115.pdf" := by
  constructor
  · exact (main_c9_truthiness _ cfgEx).1 ⟨0, 0⟩ rfl rfl rfl
  · have h := (main_c9_truthiness
      ⟨some ⟨5, 0⟩, some ⟨0, 0⟩, none, "2025-01-15", none, none⟩ cfgEx).2
      ⟨5, 0⟩ ⟨0, 0⟩ rfl rfl (by decide) rfl rfl
    rw [h]
    decide

/-- Whether a row loads without an exception. -/
def rowLoads (r : CsvRow) : Bool :=
  match load_row r with
  | .ok _ => true
  | .error _ => false

/-- A well-formed CSV row. -/
def goodRow : CsvRow :=
  [("hours", some "2"), ("description", some "Dev work"), ("rate", some "100")]

/-- A CSV row with non-numeric hours. -/
def badRow : CsvRow :=
  [("hours", some "abc"), ("description", some "Dev work"), ("rate", some "100")]

/-- A CSV row whose header lacks the rate column. -/
def shortRow : CsvRow :=
  [("hours", some "2"), ("description", some "Dev work")]

/-- A CSV row whose rate cell carries surrounding whitespace, as a CSV
written with spaces after its commas produces. -/
def spaceRow : CsvRow :=
  [("hours", some "2"), ("description", some " Dev work"), ("rate", some " 100")]

/-- C3, counterexample: the same `badRow` placed as the first row of one
input and as the second row of another produces the identical error
value — the raised `ValueError` carries only the offending string, so it
cannot identify the offending row (and it is the bare exception of
`float`, not a `ParseError`). -/
theorem csv_c3_counterexample :
    load_line_items_from_csv [badRow] =
      Except.error (PyExn.valueError (floatValueMsg "abc")) ∧
    load_line_items_from_csv [goodRow, badRow] =
      Except.error (PyExn.valueError (floatValueMsg "abc")) ∧
    goodRow ≠ badRow := ⟨rfl, rfl, by decide⟩

/-- C3 (amended): a row with missing or non-numeric hours or rate makes
loading fail with the bare Python exception of the failing operation
(`KeyError` for a missing column, `TypeError` for the `None` of a short row,
`ValueError` for a non-numeric string); the error is exactly the own error of the failing
row, independent of its position and of the rows after it, so it does not identify the offending row.  Rows that all load
produce the item list. -/
theorem csv_c3_row_errors :
    (∀ (pre rest : List CsvRow) (bad : CsvRow) (e : PyExn),
      (∀ r ∈ pre, rowLoads r = true) →
      load_row bad = .error e →
      load_line_items_from_csv (pre ++ bad :: rest) = .error e) ∧
    (∀ rows : List CsvRow, (∀ r ∈ rows, rowLoads r = true) →
      ∃ items, load_line_items_from_csv rows = .ok items) ∧
    (∀ row : CsvRow, rowGet row "hours" = none →
      load_row row = .error (.keyError "hours")) ∧
    (∀ (row : CsvRow) (s : String), rowGet row "hours" = some (some s) → pyFloat s = none →
      load_row row = .error (.valueError (floatValueMsg s))) ∧
    (∀ row : CsvRow, rowGet row "hours" = some none →
      load_row row = .error (.typeError floatNoneMsg)) := by
  refine ⟨?_, ?_, ?_, ?_, ?_⟩
  · intro pre
    induction pre with
    | nil =>
      intro rest bad e hpre hbad
      simp only [List.nil_append, load_line_items_from_csv]
      rw [hbad]
    | cons r pre ih =>
      intro rest bad e hpre hbad
      have hr : rowLoads r = true := hpre r (by simp)
      unfold rowLoads at hr
      cases hlr : load_row r with
      | error e2 =>
        rw [hlr] at hr
        simp at hr
      | ok it =>
        have hrec := ih rest bad e (fun r2 h2 => hpre r2 (by simp [h2])) hbad
        simp [load_line_items_from_csv, hlr, hrec]
  · intro rows
    induction rows with
    | nil =>
      intro _
      exact ⟨[], rfl⟩
    | cons r rest ih =>
      intro hall
      have hr : rowLoads r = true := hall r (by simp)
      unfold rowLoads at hr
      obtain ⟨items, hitems⟩ := ih (fun r2 h2 => hall r2 (by simp [h2]))
      cases hlr : load_row r with
      | error e2 =>
        rw [hlr] at hr
        simp at hr
      | ok it =>
        exact ⟨it :: items, by simp [load_line_items_from_csv, hlr, hitems]⟩
  · intro row hget
    simp [load_row, hget]
  · intro row s hget hfl
    simp [load_row, hget, hfl]
  · intro row hget
    simp [load_row, hget]

/-- C3, witness: a row whose header lacks the rate column fails the
whole load with `KeyError`, a non-numeric hours string fails with
`ValueError`, and well-formed rows load — including a rate cell with
surrounding whitespace, which `float` strips. -/
theorem csv_c3_row_errors_witness :
    load_line_items_from_csv [goodRow, shortRow] = Except.error (PyExn.keyError "rate") ∧
    (∃ items, load_line_items_from_csv [goodRow] = Except.ok items) ∧
    (∃ items, load_line_items_from_csv [spaceRow] = Except.ok items) ∧
    load_row [("hours", some "x2"), ("description", some "d"), ("rate", some "100")] =
      Except.error (PyExn.valueError (floatValueMsg "x2")) :=
  ⟨csv_c3_row_errors.1 [goodRow] [] shortRow _ (by decide) rfl,
   csv_c3_row_errors.2.1 [goodRow] (by decide),
   csv_c3_row_errors.2.1 [spaceRow] (by decide),
   csv_c3_row_errors.2.2.2.1 _ "x2" rfl rfl⟩

/-- C4: with a readable config file and the tool installed, exactly one
mutating command runs: when the lookup exits 0 the `edit` (update)
command with the raw config text as payload, otherwise the `create`
command with the same payload. -/
theorem store_c4_create_or_update (configPath content vault title : String)
    (account : Option String) (w : OpWorld) (hop : w.opInstalled = true) :
    (store_config configPath (some content) vault title account w).commands.countP
      isModifyCmd = 1 ∧
    (w.getExit = 0 →
      (store_config configPath (some content) vault title account w).commands =
        [OpCmd.get title vault account,
         OpCmd.edit title vault ("config[text]=" ++ content) account]) ∧
    (w.getExit ≠ 0 →
      (store_config configPath (some content) vault title account w).commands =
        [OpCmd.get title vault account,
         OpCmd.create vault title ("config[text]=" ++ content) account]) := by
  by_cases hg : w.getExit = 0
  · by_cases he : w.editExit = 0
    all_goals
      simp [store_config, item_exists, hop, hg, he, isModifyCmd, List.countP_cons]
  · by_cases hc : w.createExit = 0
    all_goals
      simp [store_config, item_exists, hop, hg, hc, isModifyCmd, List.countP_cons]

/-- C4, witness: a zero lookup exit leads to the `edit` command, a
non-zero one to the `create` command, both with the config payload. -/
theorem store_c4_create_or_update_witness :
    (store_config "config.toml" (some "content") "Private" "invoice-config" none
      ⟨true, 0, 0, 0, "", ""⟩).commands =
      [OpCmd.get "invoice-config" "Private" none,
       OpCmd.edit "invoice-config" "Private" ("config[text]=" ++ "content") none] ∧
    (store_config "config.toml" (some "content") "Private" "invoice-config" none
      ⟨true, 1, 0, 0, "", ""⟩).commands =
      [OpCmd.get "invoice-config" "Private" none,
       OpCmd.create "Private" "invoice-config" ("config[text]=" ++ "content") none] :=
  ⟨(store_c4_create_or_update "config.toml" "content" "Private" "invoice-config" none
      ⟨true, 0, 0, 0, "", ""⟩ rfl).2.1 rfl,
   (store_c4_create_or_update "config.toml" "content" "Private" "invoice-config" none
      ⟨true, 1, 0, 0, "", ""⟩ rfl).2.2 (by decide)⟩

/-- C8, counterexample: a successful run prints and returns the
reference with scheme `op://`, not `store://`. -/
theorem store_c8_counterexample :
    (store_config "config.toml" (some "x") "Private" "invoice-config" none
      ⟨true, 1, 0, 0, "", ""⟩).ref = some "op://Private/invoice-config/config" ∧
    (store_config "config.toml" (some "x") "Private" "invoice-config" none
      ⟨true, 1, 0, 0, "", ""⟩).ref ≠ some "store://Private/invoice-config/config" := by decide

/-- C8 (amended): every run that does not exit with an error returns
the reference string `op://` + vault + `/` + title + `/config`, and its
single stdout line is the stored/updated message ending in that
reference. -/
theorem store_c8_ref_format (configPath vault title : String) (content : Option String)
    (account : Option String) (w : OpWorld)
    (hok : (store_config configPath content vault title account w).exitCode = none) :
    (store_config configPath content vault title account w).ref =
      some ("op://" ++ vault ++ "/" ++ title ++ "/config") ∧
    ((store_config configPath content vault title account w).stdoutLines =
      ["Config updated in 1Password: " ++ ("op://" ++ vault ++ "/" ++ title ++ "/config")] ∨
     (store_config configPath content vault title account w).stdoutLines =
      ["Config stored in 1Password: " ++ ("op://" ++ vault ++ "/" ++ title ++ "/config")]) := by
  cases content with
  | none => simp [store_config] at hok
  | some c =>
    by_cases hop : w.opInstalled = true
    · by_cases hg : w.getExit = 0
      · by_cases he : w.editExit = 0
        · simp [store_config, item_exists, hop, hg, he, opRef]
        · simp [store_config, item_exists, hop, hg, he] at hok
      · by_cases hc : w.createExit = 0
        · simp [store_config, item_exists, hop, hg, hc, opRef]
        · simp [store_config, item_exists, hop, hg, hc] at hok
    · have hop2 : w.opInstalled = false := by
        simpa using hop
      simp [store_config, hop2] at hok

/-- C8, witness: the reference returned by a successful update run. -/
theorem store_c8_ref_format_witness :
    (store_config "config.toml" (some "x") "Private" "invoice-config" none
      ⟨true, 0, 0, 0, "", ""⟩).ref =
      some ("op://" ++ "Private" ++ "/" ++ "invoice-config" ++ "/config") :=
  (store_c8_ref_format "config.toml" "Private" "invoice-config" (some "x") none
    ⟨true, 0, 0, 0, "", ""⟩ rfl).1

/-- C10: the existence check is exactly "the lookup exited 0": any
non-zero lookup exit makes `item_exists` false, so the `create` command
(with the config payload) is invoked and no `edit`; the non-zero lookup
exit itself is not reported — when the create call succeeds there is no
stderr output and no error exit. -/
theorem store_c10_exit_check (configPath content vault title : String)
    (account : Option String) (w : OpWorld)
    (hop : w.opInstalled = true) (hget : w.getExit ≠ 0) :
    item_exists w = false ∧
    hasCreate (store_config configPath (some content) vault title account w).commands = true ∧
    hasEdit (store_config configPath (some content) vault title account w).commands = false ∧
    (w.createExit = 0 →
      (store_config configPath (some content) vault title account w).stderrLines = [] ∧
      (store_config configPath (some content) vault title account w).exitCode = none) := by
  have hie : item_exists w = false := by
    simp [item_exists, hget]
  by_cases hc : w.createExit = 0
  · simp [store_config, hie, hop, hc, hasCreate, hasEdit]
  · simp [store_config, hie, hop, hc, hasCreate, hasEdit]

/-- C10, witness: a lookup exit of 5 (for whatever reason) leads to a
clean create run with no error output. -/
theorem store_c10_exit_check_witness :
    item_exists ⟨true, 5, 0, 0, "", ""⟩ = false ∧
    hasCreate (store_config "config.toml" (some "x") "Private" "invoice-config" none
      ⟨true, 5, 0, 0, "", ""⟩).commands = true ∧
    hasEdit (store_config "config.toml" (some "x") "Private" "invoice-config" none
      ⟨true, 5, 0, 0, "", ""⟩).commands = false ∧
    (store_config "config.toml" (some "x") "Private" "invoice-config" none
      ⟨true, 5, 0, 0, "", ""⟩).exitCode = none := by
  obtain ⟨h1, h2, h3, h4⟩ := store_c10_exit_check "config.toml" "x" "Private" "invoice-config"
    none ⟨true, 5, 0, 0, "", ""⟩ rfl (by decide)
  exact ⟨h1, h2, h3, (h4 rfl).2⟩
